import Mathlib

/-!
Verification of the nider compositing and layout engine (nider/models.py).

The data model and the operations below are a shallow embedding of the
Python source: heights and canvas dimensions are integers, colors are
optional strings where Python uses None or an empty string for an unset
color, horizontal pixel offsets are rationals because the source computes
them with float division and float multiplication, and calls into the
imaging collaborator (draw.textsize, blend, opposite color generation)
are passed in as function parameters.
-/

namespace Nider

/-- Outline attached to a text unit: stroke width and an optional color
(models.py uses unit.outline.width and unit.outline.color). -/
structure Outline where
  width : Int
  color : Option String
  deriving DecidableEq

/-- Text unit as consumed by the engine: the text, an optional color
(none or empty string means unset, mirroring Python falsiness), an
alignment string, an optional outline, the precomputed total height, the
wrapped lines when the unit is multi-line (none triggers the single-line
fallback of Image.draw_unit), and the optional inter-line padding. -/
structure TextUnit where
  text : String
  color : Option String
  align : String
  outline : Option Outline
  height : Int
  wrapped_lines : Option (List String)
  line_padding : Option Int
  deriving DecidableEq

/-- Height computed by Linkback.set_height in models.py: the base
single-line height computed by the superclass plus bottom_padding. -/
def linkback_set_height (base_height bottom_padding : Int) : Int :=
  base_height + bottom_padding

/-- Content aggregate: optional paragraph, header and linkback units, the
shared padding, the derived total height and the fits flag
(Content in models.py; fits defaults to true). -/
structure Content where
  para : Option TextUnit
  header : Option TextUnit
  linkback : Option TextUnit
  padding : Int
  height : Int
  fits : Bool
  deriving DecidableEq

/-- Translation of Content.set_content_height: height starts at zero,
the paragraph adds two paddings plus its height, the header adds one
padding plus its height, the linkback adds its height. -/
def Content.set_content_height (c : Content) : Content :=
  let h1 : Int := match c.para with
    | some p => 2 * c.padding + p.height
    | none => 0
  let h2 : Int := match c.header with
    | some hd => h1 + (1 * c.padding + hd.height)
    | none => h1
  let h3 : Int := match c.linkback with
    | some l => h2 + l.height
    | none => h2
  { c with height := h3 }

/-- Translation of the Content constructor: raises when all three units
are absent, otherwise stores the units and computes the height. -/
def Content.init (paragraph header linkback : Option TextUnit) (padding : Int) :
    Except String Content :=
  if paragraph.isNone && header.isNone && linkback.isNone then
    .error "Content has to consist at least of one unit."
  else
    .ok (Content.set_content_height
      { para := paragraph, header := header, linkback := linkback,
        padding := padding, height := 0, fits := true })

/-- State of an Image object: canvas width and height and the owned
content aggregate. -/
structure ImgState where
  width : Int
  height : Int
  content : Content
  deriving DecidableEq

/-- Translation of the Image constructor checks: set_fullpath raises when
the path is not creatable, set_image_size raises when width or height is
not positive; the path check runs first, as in Image.init.
The filesystem collaborator is passed in as the creatable predicate. -/
def Image.init (content : Content) (fullpath : String) (creatable : String → Bool)
    (width height : Int) : Except String ImgState :=
  if creatable fullpath then
    if width ≤ 0 ∨ height ≤ 0 then
      .error "Width or height of the image have to be positive integers"
    else
      .ok { width := width, height := height, content := content }
  else
    .error "Is seems impossible to create a file in path"

/-- Construction of an Image from raw units: the Content constructor runs
first, then the Image constructor, matching the call order in client code
and the checks inside Image.init. -/
def buildImage (paragraph header linkback : Option TextUnit) (padding : Int)
    (fullpath : String) (creatable : String → Bool) (width height : Int) :
    Except String ImgState :=
  match Content.init paragraph header linkback padding with
  | .error e => .error e
  | .ok c => Image.init c fullpath creatable width height

/-- Boolean success test for an Except value. -/
def exceptOk (e : Except String ImgState) : Bool :=
  match e with
  | .ok _ => true
  | .error _ => false

/-- Translation of Image.fix_image_size: when the content height is at
least the canvas height, a size-fixed warning is emitted, fits becomes
false and the canvas height is replaced by the content height; otherwise
nothing changes. The returned Bool records whether the warning fired. -/
def fix_image_size (s : ImgState) : ImgState × Bool :=
  if s.content.height ≥ s.height then
    ({ s with height := s.content.height,
              content := { s.content with fits := false } }, true)
  else
    (s, false)

/-- Observable steps of a render entry point, in the order the source
performs them. sizeCheck is the call to fix_image_size, allocBuffer is
the creation or loading of the pixel buffer. -/
inductive Step where
  | sizeCheck
  | allocBuffer
  | createDraw
  | fillTexture
  | fillColor
  | drawContent
  | saveImage
  deriving DecidableEq

/-- Translation of Image.create_image: runs fix_image_size and then
allocates the PIL buffer, in that order. -/
def create_image (s : ImgState) : ImgState × List Step :=
  ((fix_image_size s).1, [Step.sizeCheck, Step.allocBuffer])

/-- Translation of Image.draw_on_texture after path validation and color
resolution: create_image, create_draw_object, fill_image_with_texture,
draw_content, save. -/
def draw_on_texture (s : ImgState) : ImgState × List Step :=
  let c := create_image s
  (c.1, c.2 ++ [Step.createDraw, Step.fillTexture, Step.drawContent, Step.saveImage])

/-- Translation of Image.draw_on_bg after color resolution: create_image,
create_draw_object, fill_image_with_color, draw_content, save. -/
def draw_on_bg (s : ImgState) : ImgState × List Step :=
  let c := create_image s
  (c.1, c.2 ++ [Step.createDraw, Step.fillColor, Step.drawContent, Step.saveImage])

/-- Translation of Image.draw_on_image: the photo is opened (this is the
pixel buffer), the draw object is created, width and height are replaced
by the photo dimensions, then draw_content and save run. fix_image_size
is never called on this path. -/
def draw_on_image (photoWidth photoHeight : Int) (s : ImgState) : ImgState × List Step :=
  ({ s with width := photoWidth, height := photoHeight },
   [Step.allocBuffer, Step.createDraw, Step.drawContent, Step.saveImage])

/-- Translation of Image.draw_para: when the content fits the paragraph
is centered using math.floor of the float division, otherwise it is
stacked below the header (two paddings plus header height) or at one
padding from the top when there is no header. -/
def draw_para_offset (s : ImgState) : Option Int :=
  s.content.para.map fun p =>
    if s.content.fits then
      Int.floor (((s.height : ℚ) - (p.height : ℚ)) / 2)
    else
      match s.content.header with
      | some hd => 2 * s.content.padding + hd.height
      | none => s.content.padding

/-- Translation of Image.draw_linkback: the linkback starts at the canvas
height minus the linkback height. -/
def draw_linkback_offset (s : ImgState) : Option Int :=
  s.content.linkback.map fun l => s.height - l.height

/-- One glyph drawing operation issued to the pixel collaborator: the
horizontal offset is rational because the source computes it with float
arithmetic, the vertical offset stays an integer. -/
structure DrawOp where
  x : ℚ
  y : Int
  text : String
  fill : Option String
  deriving DecidableEq

/-- Translation of the alignment branch of Image.draw_unit: center, left
and right produce an offset; any other alignment leaves x unassigned,
which the embedding records as none. -/
def alignX (width : Int) (w : Int) (align : String) : Option ℚ :=
  if align = "center" then some (((width : ℚ) - (w : ℚ)) / 2)
  else if align = "left" then some ((width : ℚ) * 0.075)
  else if align = "right" then some (0.925 * (width : ℚ) - (w : ℚ))
  else none

/-- Drawing operations issued for one line in Image.draw_unit: with an
outline, four orthogonal offset copies, four diagonal offset copies, each
filled with the outline color, then the fill pass at the exact position;
without an outline only the fill pass. -/
def lineOps (u : TextUnit) (x : ℚ) (y : Int) (line : String) : List DrawOp :=
  (match u.outline with
   | some o =>
       [⟨x - (o.width : ℚ), y, line, o.color⟩,
        ⟨x + (o.width : ℚ), y, line, o.color⟩,
        ⟨x, y - o.width, line, o.color⟩,
        ⟨x, y + o.width, line, o.color⟩,
        ⟨x - (o.width : ℚ), y - o.width, line, o.color⟩,
        ⟨x + (o.width : ℚ), y - o.width, line, o.color⟩,
        ⟨x - (o.width : ℚ), y + o.width, line, o.color⟩,
        ⟨x + (o.width : ℚ), y + o.width, line, o.color⟩]
   | none => []) ++ [⟨x, y, line, u.color⟩]

/-- Lines drawn by Image.draw_unit: the wrapped lines when present,
otherwise the single-line fallback list holding the raw text. -/
def effLines (u : TextUnit) : List String :=
  u.wrapped_lines.getD [u.text]

/-- Loop body of Image.draw_unit over the lines: measure the line, derive
the horizontal offset from the alignment (failing when the alignment is
unknown), emit the operations of the line, and advance the cursor by line
height plus line padding only when the line padding is set and non-zero
(Python truthiness of line_padding). -/
def drawLinesGo (width : Int) (measure : String → Int × Int) (u : TextUnit) :
    Int → List String → Option (List DrawOp)
  | _, [] => some []
  | currentH, line :: rest =>
    let wh := measure line
    match alignX width wh.1 u.align with
    | none => none
    | some x =>
      let lp := u.line_padding.getD 0
      let nextH := if lp ≠ 0 then currentH + wh.2 + lp else currentH
      (drawLinesGo width measure u nextH rest).map fun more =>
        lineOps u x currentH line ++ more

/-- Translation of Image.draw_unit: run the line loop from the starting
height over the effective lines. -/
def draw_unit (width : Int) (measure : String → Int × Int) (start_height : Int)
    (u : TextUnit) : Option (List DrawOp) :=
  drawLinesGo width measure u start_height (effLines u)

/-- Python truthiness of a color attribute: None and the empty string are
falsy, any other string is truthy. -/
def truthyColor : Option String → Bool
  | none => false
  | some s => s != ""

/-- Translation of the per-unit body of Image.prepare_content: when the
unit color is falsy it is set to the opposite-to-background color and an
auto color warning fires; then, when an outline is present and its color
is falsy, the outline color is set to the blend of the unit color toward
black and an auto outline color warning fires. The two returned Booleans
record the two warnings. The opposite color and the blend function are
the color collaborator, passed in as parameters. -/
def prepare_unit (opposite : String) (blendToBlack : Option String → String)
    (u : TextUnit) : TextUnit × Bool × Bool :=
  let step1 : TextUnit × Bool :=
    if truthyColor u.color then (u, false)
    else ({ u with color := some opposite }, true)
  let u1 := step1.1
  let step2 : TextUnit × Bool :=
    match u1.outline with
    | some o =>
        if truthyColor o.color then (u1, false)
        else ({ u1 with outline := some { o with color := some (blendToBlack u1.color) } }, true)
    | none => (u1, false)
  (step2.1, step1.2, step2.2)

/-- Concrete paragraph unit used by closed witnesses and counterexamples:
height 100, explicit color, centered. -/
def samplePara : TextUnit :=
  { text := "hello world", color := some "#ffffff", align := "center",
    outline := none, height := 100, wrapped_lines := some ["hello world"],
    line_padding := some 6 }

/-- Concrete aggregate holding only samplePara with padding 45, so the
computed height is 190. -/
def sampleContent : Content :=
  { para := some samplePara, header := none, linkback := none,
    padding := 45, height := 190, fits := true }

/-- Concrete image state requesting a 150 by 150 canvas for
sampleContent, whose height 190 overflows it. -/
def sampleState : ImgState :=
  { width := 150, height := 150, content := sampleContent }

/-- Concrete linkback unit whose stored height 50 is the base height 30
plus the bottom padding 20. -/
def sampleLinkback : TextUnit :=
  { text := "nider.readthedocs.io", color := some "#000000", align := "center",
    outline := none, height := 50, wrapped_lines := none, line_padding := none }

/-- Concrete image state with a 500 by 500 canvas whose aggregate also
holds sampleLinkback. -/
def linkbackState : ImgState :=
  { width := 500, height := 500,
    content := { sampleContent with linkback := some sampleLinkback } }

/-- C1 counterexample: for the concrete overflowing state, the photo mode
entry point draw_on_image performs no size check, keeps fits true and
does not grow the canvas height to the content height, refuting the
claim that the canvas-size check runs on every render entry point. -/
theorem photo_mode_skips_size_check_cex :
    sampleState.content.height ≥ sampleState.height ∧
    Step.sizeCheck ∉ (draw_on_image 150 150 sampleState).2 ∧
    (draw_on_image 150 150 sampleState).1.content.fits = true ∧
    (draw_on_image 150 150 sampleState).1.height ≠ sampleState.content.height := by
  refine ⟨by decide, by decide, rfl, by decide⟩

/-- C1 amended: on the texture and solid-color entry points the size
check runs strictly before the pixel buffer allocation, and an aggregate
whose height is at least the requested canvas height renders with fits
false and the grown canvas height; the photo entry point never runs the
size check and leaves fits unchanged. -/
theorem render_paths_size_check_amended (s : ImgState) (pw ph : Int)
    (hoverflow : s.content.height ≥ s.height) :
    (draw_on_texture s).2 =
      [Step.sizeCheck, Step.allocBuffer, Step.createDraw, Step.fillTexture,
       Step.drawContent, Step.saveImage] ∧
    (draw_on_texture s).1.content.fits = false ∧
    (draw_on_texture s).1.height = s.content.height ∧
    (draw_on_bg s).2 =
      [Step.sizeCheck, Step.allocBuffer, Step.createDraw, Step.fillColor,
       Step.drawContent, Step.saveImage] ∧
    (draw_on_bg s).1.content.fits = false ∧
    (draw_on_bg s).1.height = s.content.height ∧
    Step.sizeCheck ∉ (draw_on_image pw ph s).2 ∧
    (draw_on_image pw ph s).1.content.fits = s.content.fits := by
  refine ⟨rfl, ?_, ?_, rfl, ?_, ?_, ?_, rfl⟩ <;>
    simp [draw_on_texture, draw_on_bg, draw_on_image, create_image, fix_image_size,
      hoverflow]

/-- C1 amended witness at the concrete overflowing state. -/
theorem render_paths_size_check_amended_witness :
    (draw_on_texture sampleState).1.content.fits = false ∧
    Step.sizeCheck ∉ (draw_on_image 150 150 sampleState).2 :=
  ⟨(render_paths_size_check_amended sampleState 150 150 (by decide)).2.1,
   (render_paths_size_check_amended sampleState 150 150 (by decide)).2.2.2.2.2.2.1⟩

/-- C2: for a positive requested canvas height and an aggregate whose
fits flag still holds its default true, fix_image_size grows the canvas
to the content height, clears fits and emits the warning exactly when the
content height reaches the canvas height, and otherwise changes nothing
and emits no warning; the width is never touched. -/
theorem fix_image_size_spec (s : ImgState) (_hpos : 0 < s.height)
    (hfits : s.content.fits = true) :
    (s.content.height ≥ s.height →
      (fix_image_size s).1.height = s.content.height ∧
      (fix_image_size s).1.width = s.width ∧
      (fix_image_size s).1.content.fits = false ∧
      (fix_image_size s).2 = true) ∧
    (¬ s.content.height ≥ s.height →
      (fix_image_size s).1.width = s.width ∧
      (fix_image_size s).1.height = s.height ∧
      (fix_image_size s).1.content.fits = true ∧
      (fix_image_size s).2 = false) := by
  constructor
  · intro h
    simp [fix_image_size, h]
  · intro h
    simp [fix_image_size, h, hfits]

/-- C2 witness: the overflowing concrete state is resized (content
height 190 against requested 150), and a non-overflowing variant with
height 500 is untouched. -/
theorem fix_image_size_spec_witness :
    (fix_image_size sampleState).1.height = sampleState.content.height ∧
    (fix_image_size { sampleState with height := 500 }).2 = false :=
  ⟨((fix_image_size_spec sampleState (by decide) rfl).1 (by decide)).1,
   ((fix_image_size_spec { sampleState with height := 500 } (by decide) rfl).2
      (by decide)).2.2.2⟩

/-- C3: every aggregate the constructor accepts (at least one unit
present) has height equal to the sum of two paddings plus the paragraph
height when a paragraph is present, one padding plus the header height
when a header is present, and the linkback height when a linkback is
present; in particular with only a paragraph the height is two paddings
plus the paragraph height. -/
theorem content_height_spec (paragraph header linkback : Option TextUnit)
    (padding : Int) (c : Content)
    (hok : Content.init paragraph header linkback padding = .ok c) :
    c.height =
      (match paragraph with | some p => 2 * padding + p.height | none => 0) +
      (match header with | some hd => 1 * padding + hd.height | none => 0) +
      (match linkback with | some l => l.height | none => 0) := by
  cases paragraph <;> cases header <;> cases linkback <;>
    simp [Content.init, Content.set_content_height] at hok ⊢ <;>
    (subst hok; simp)

/-- C3 witness: an aggregate with only samplePara (height 100) and
padding 45 has height 190. -/
theorem content_height_spec_witness :
    ∃ c, Content.init (some samplePara) none none 45 = .ok c ∧ c.height = 190 := by
  refine ⟨_, rfl, ?_⟩
  have h := content_height_spec (some samplePara) none none 45 _ rfl
  simpa [samplePara] using h

/-- C4: with a paragraph present, when fits holds the paragraph offset is
the floor of half the difference between the canvas height and the
paragraph height; when fits fails it is two paddings plus the header
height with a header, and one padding without one. -/
theorem para_offset_spec (s : ImgState) (p : TextUnit)
    (hp : s.content.para = some p) :
    (s.content.fits = true →
      draw_para_offset s =
        some (Int.floor (((s.height : ℚ) - (p.height : ℚ)) / 2))) ∧
    (s.content.fits = false →
      (∀ hd, s.content.header = some hd →
        draw_para_offset s = some (2 * s.content.padding + hd.height)) ∧
      (s.content.header = none →
        draw_para_offset s = some s.content.padding)) := by
  refine ⟨fun hfits => ?_, fun hnofit => ⟨fun hd hhd => ?_, fun hnohd => ?_⟩⟩ <;>
    simp [draw_para_offset, hp, *]

/-- C4 witness: for the concrete fitting state with canvas height 1080
and paragraph height 100, the offset is 490; for the overflowing state
after the size fix (fits false, no header), the offset is the padding
45. -/
theorem para_offset_spec_witness :
    draw_para_offset { sampleState with height := 1080 } = some 490 ∧
    draw_para_offset (fix_image_size sampleState).1 = some 45 := by
  constructor
  · have h := (para_offset_spec { sampleState with height := 1080 } samplePara rfl).1 rfl
    rw [h]
    norm_num [samplePara]
  · have h := ((para_offset_spec (fix_image_size sampleState).1 samplePara
      (by decide)).2 (by decide)).2 (by decide)
    rw [h]
    decide

/-- C5: the linkback height set by Linkback.set_height is the base
single-line height plus the bottom padding, and with a linkback of that
height present the linkback offset is the final canvas height minus that
effective height. -/
theorem linkback_height_offset_spec (s : ImgState) (l : TextUnit)
    (base bottom_padding : Int) (hl : s.content.linkback = some l)
    (hh : l.height = linkback_set_height base bottom_padding) :
    l.height = base + bottom_padding ∧
    draw_linkback_offset s = some (s.height - (base + bottom_padding)) := by
  constructor
  · simpa [linkback_set_height] using hh
  · simp [draw_linkback_offset, hl, hh, linkback_set_height]

/-- C5 witness: a linkback of base height 30 and bottom padding 20 on a
canvas of height 500 starts at 450. -/
theorem linkback_height_offset_spec_witness :
    draw_linkback_offset linkbackState = some 450 := by
  have h := (linkback_height_offset_spec linkbackState sampleLinkback
    30 20 rfl (by decide)).2
  rw [h]
  decide

/-- C6: for one line, a unit with an outline yields exactly the eight
offset copies at plus or minus the outline width along each axis and
both diagonals, each filled with the outline color, followed by the one
fill pass at the exact position in the unit color; a unit without an
outline yields exactly the one fill pass. -/
theorem outline_draw_ops_spec (u : TextUnit) (x : ℚ) (y : Int) (line : String) :
    (∀ o, u.outline = some o →
      lineOps u x y line =
        [⟨x - (o.width : ℚ), y, line, o.color⟩,
         ⟨x + (o.width : ℚ), y, line, o.color⟩,
         ⟨x, y - o.width, line, o.color⟩,
         ⟨x, y + o.width, line, o.color⟩,
         ⟨x - (o.width : ℚ), y - o.width, line, o.color⟩,
         ⟨x + (o.width : ℚ), y - o.width, line, o.color⟩,
         ⟨x - (o.width : ℚ), y + o.width, line, o.color⟩,
         ⟨x + (o.width : ℚ), y + o.width, line, o.color⟩,
         ⟨x, y, line, u.color⟩]) ∧
    (u.outline = none → lineOps u x y line = [⟨x, y, line, u.color⟩]) := by
  constructor
  · intro o ho
    simp [lineOps, ho]
  · intro ho
    simp [lineOps, ho]

/-- C6 witness: samplePara with an outline of width 2 yields the nine
listed operations, and without one the single fill operation. -/
theorem outline_draw_ops_spec_witness :
    lineOps { samplePara with outline := some { width := 2, color := some "#333333" } }
        10 20 "hi" =
      [⟨8, 20, "hi", some "#333333"⟩, ⟨12, 20, "hi", some "#333333"⟩,
       ⟨10, 18, "hi", some "#333333"⟩, ⟨10, 22, "hi", some "#333333"⟩,
       ⟨8, 18, "hi", some "#333333"⟩, ⟨12, 18, "hi", some "#333333"⟩,
       ⟨8, 22, "hi", some "#333333"⟩, ⟨12, 22, "hi", some "#333333"⟩,
       ⟨10, 20, "hi", some "#ffffff"⟩] ∧
    lineOps samplePara 10 20 "hi" = [⟨10, 20, "hi", some "#ffffff"⟩] := by
  constructor
  · have h := (outline_draw_ops_spec
      { samplePara with outline := some { width := 2, color := some "#333333" } }
      10 20 "hi").1 { width := 2, color := some "#333333" } rfl
    rw [h]
    norm_num [samplePara]
  · have h := (outline_draw_ops_spec samplePara 10 20 "hi").2 rfl
    rw [h]
    rfl

/-- C7: for a measured line width not exceeding the canvas width, center
alignment places the line at half the width difference, left alignment at
seven and a half percent of the canvas width, and right alignment at
ninety-two and a half percent of the canvas width minus the line
width. -/
theorem alignment_offset_spec (W w : Int) (_h : w ≤ W) :
    alignX W w "center" = some (((W : ℚ) - (w : ℚ)) / 2) ∧
    alignX W w "left" = some (0.075 * (W : ℚ)) ∧
    alignX W w "right" = some (0.925 * (W : ℚ) - (w : ℚ)) := by
  refine ⟨?_, ?_, ?_⟩
  · simp [alignX]
  · simp [alignX]
    ring
  · simp [alignX]

/-- C7 witness: on a canvas of width 1000 a line of width 200 is centered
at 400, left-aligned at 75, right-aligned at 725. -/
theorem alignment_offset_spec_witness :
    alignX 1000 200 "center" = some 400 ∧
    alignX 1000 200 "left" = some 75 ∧
    alignX 1000 200 "right" = some 725 := by
  obtain ⟨h1, h2, h3⟩ := alignment_offset_spec 1000 200 (by norm_num)
  refine ⟨?_, ?_, ?_⟩
  · rw [h1]; norm_num
  · rw [h2]; norm_num
  · rw [h3]; norm_num

/-- C8: a unit whose color is explicit and non-empty keeps that exact
color through prepare_unit and triggers no auto color warning; and for
any unit, provided the color collaborator never returns an empty color,
running prepare_unit twice produces the same unit state as running it
once. -/
theorem prepare_content_idempotent (opposite : String)
    (blendToBlack : Option String → String) (u : TextUnit)
    (hop : opposite ≠ "") (hbl : ∀ c, blendToBlack c ≠ "") :
    (truthyColor u.color = true →
      (prepare_unit opposite blendToBlack u).1.color = u.color ∧
      (prepare_unit opposite blendToBlack u).2.1 = false) ∧
    (prepare_unit opposite blendToBlack
        (prepare_unit opposite blendToBlack u).1).1 =
      (prepare_unit opposite blendToBlack u).1 := by
  have hto : truthyColor (some opposite) = true := by
    simp [truthyColor, hop]
  have hblt : ∀ c, truthyColor (some (blendToBlack c)) = true := by
    intro c
    simp [truthyColor, hbl c]
  constructor
  · intro htruthy
    cases ho : u.outline with
    | none => simp [prepare_unit, htruthy, ho]
    | some o =>
        by_cases hoc : truthyColor o.color = true
        · simp [prepare_unit, htruthy, ho, hoc]
        · simp [prepare_unit, htruthy, ho, hoc]
  · by_cases hc : truthyColor u.color = true
    · cases ho : u.outline with
      | none => simp [prepare_unit, hc, ho]
      | some o =>
          by_cases hoc : truthyColor o.color = true
          · simp [prepare_unit, hc, ho, hoc]
          · simp [prepare_unit, hc, ho, hoc, hblt]
    · cases ho : u.outline with
      | none => simp [prepare_unit, hc, ho, hto]
      | some o =>
          by_cases hoc : truthyColor o.color = true
          · simp [prepare_unit, hc, ho, hoc, hto]
          · simp [prepare_unit, hc, ho, hoc, hto, hblt]

/-- C8 witness: samplePara already has the explicit color so nothing
changes and no warning fires, and resolution is idempotent for a unit
with no color. -/
theorem prepare_content_idempotent_witness :
    (prepare_unit "#101010" (fun _ => "#0d0d0d") samplePara).1.color =
        samplePara.color ∧
    (prepare_unit "#101010" (fun _ => "#0d0d0d")
        (prepare_unit "#101010" (fun _ => "#0d0d0d")
          { samplePara with color := none }).1).1 =
      (prepare_unit "#101010" (fun _ => "#0d0d0d")
        { samplePara with color := none }).1 :=
  ⟨((prepare_content_idempotent "#101010" (fun _ => "#0d0d0d") samplePara
      (by decide) (fun _ => by show "#0d0d0d" ≠ ""; decide)).1 (by decide)).1,
   (prepare_content_idempotent "#101010" (fun _ => "#0d0d0d")
      { samplePara with color := none } (by decide)
      (fun _ => by show "#0d0d0d" ≠ ""; decide)).2⟩

/-- C9: constructing an image fails exactly when all three units are
absent, or the requested width or height is not positive, or the output
path is not creatable; the Except encoding yields no image state on
failure. -/
theorem construction_failure_iff (paragraph header linkback : Option TextUnit)
    (padding : Int) (fullpath : String) (creatable : String → Bool)
    (width height : Int) :
    exceptOk (buildImage paragraph header linkback padding fullpath creatable
        width height) = false ↔
      ((paragraph = none ∧ header = none ∧ linkback = none) ∨
        width ≤ 0 ∨ height ≤ 0 ∨ creatable fullpath = false) := by
  cases paragraph <;> cases header <;> cases linkback <;>
    by_cases hcr : creatable fullpath = true <;>
    by_cases hwh : width ≤ 0 ∨ height ≤ 0 <;>
    simp [buildImage, Content.init, Image.init, exceptOk, hcr, hwh]

/-- C10: when the alignment of a unit is none of left, center and right,
no branch of the alignment chain assigns a horizontal offset, and drawing
the unit fails on its first line whenever the unit has at least one
line. -/
theorem invalid_align_draw_fails (u : TextUnit) (width : Int)
    (measure : String → Int × Int) (start_height : Int)
    (hbad : u.align ≠ "left" ∧ u.align ≠ "center" ∧ u.align ≠ "right")
    (hlines : effLines u ≠ []) :
    (∀ w, alignX width w u.align = none) ∧
    draw_unit width measure start_height u = none := by
  have halign : ∀ w, alignX width w u.align = none := by
    intro w
    unfold alignX
    rw [if_neg hbad.2.1, if_neg hbad.1, if_neg hbad.2.2]
  refine ⟨halign, ?_⟩
  unfold draw_unit
  cases h : effLines u with
  | nil => exact absurd h hlines
  | cons line rest =>
      simp [drawLinesGo, halign]

/-- C10 witness: a unit with the unknown alignment justify and one line
fails to draw on a canvas of width 300. -/
theorem invalid_align_draw_fails_witness :
    draw_unit 300 (fun _ => (40, 10)) 0
      { samplePara with align := "justify" } = none :=
  (invalid_align_draw_fails { samplePara with align := "justify" } 300
    (fun _ => (40, 10)) 0 ⟨by decide, by decide, by decide⟩ (by decide)).2

end Nider
